import Mathlib

/-!
# net-bouncer: a verification development

A shallow embedding of `src/net-bouncer.c` (a multi-port TCP honeypot) and
proofs about its logger, listener creation, startup, event loop and
signal-driven shutdown.

Conventions of the embedding:
* C machine integers become `Int` (ports, return codes, errno values) or
  `Nat` (bit masks, 16-bit address fields).
* OS calls (`socket`, `setsockopt`, `bind`, `listen`, `poll`, `accept`) are
  modelled by oracles: records/inductives carrying the result each call
  would return, so every code path of the C source is reachable.
* The log is a list of `LogRecord`; timestamps are not modelled (no claim
  depends on them).  `strerror` abstracts the C library's message table;
  no theorem depends on its values.
-/

/-- C constant from `enum log_level`: `LOG_ERROR = 0`. -/
def LOG_ERROR : Int := 0

/-- C constant from `enum log_level`: `LOG_WARNING = 1`. -/
def LOG_WARNING : Int := 1

/-- C constant from `enum log_level`: `LOG_INFO = 2`. -/
def LOG_INFO : Int := 2

/-- C constant from `enum log_level`: `LOG_DEBUG = 3`. -/
def LOG_DEBUG : Int := 3

/-- The `AF_INET` constant (Linux value). -/
def AF_INET : Int := 2

/-- The `AF_INET6` constant (Linux value). -/
def AF_INET6 : Int := 10

/-- The `AF_UNSPEC` constant. -/
def AF_UNSPEC : Int := 0

/-- The `EINVAL` constant (Linux value), as used by `return -EINVAL`. -/
def EINVAL : Int := 22

/-- The `EINTR` constant (Linux value): errno set when `poll` is interrupted
by a signal. -/
def EINTR : Int := 4

/-- The `POLLIN` bit. -/
def POLLIN : Nat := 1

/-- C constant `MAX_CONNECTIONS = 50`, passed as the backlog by `main`. -/
def MAX_CONNECTIONS : Int := 50

/-- Initial value of `static bool global_running = true`. -/
def global_running_init : Bool := true

/-- Initial value of `static enum log_level global_level = LOG_INFO`. -/
def global_level_default : Int := LOG_INFO

/-- One line of the log: severity level and message text (the timestamp
prefix written by `log_message` is not modelled). -/
structure LogRecord where
  level : Int
  msg : String
deriving DecidableEq, Repr

/-- Abstraction of the C library's `strerror` table; the claims never
depend on the concrete text, only on a record being emitted. -/
def strerror (errno : Int) : String :=
  "strerror " ++ toString errno

/-- The `log_message` function: drop the record when `level > global_level || level < 0`,
otherwise append it to the log (`global_log` writes are modelled as list
append). -/
def log_message (glevel lvl : Int) (msg : String) (log : List LogRecord) :
    List LogRecord :=
  if lvl > glevel ∨ lvl < 0 then log else log ++ [⟨lvl, msg⟩]

/-- The `log_error` helper: `log_message` of `LOG_ERROR` with the message
followed by the `strerror` text of the errno. -/
def log_error (glevel : Int) (message : String) (err : Int)
    (log : List LogRecord) : List LogRecord :=
  log_message glevel LOG_ERROR (message ++ ": " ++ strerror err) log

/-- The prefix of a `struct sockaddr_in` filled by `accept`: the 16-bit
`sin_port` field (held in network byte order, printed by `%d` as its field
value) and the four bytes of `sin_addr`. -/
structure SockAddrIn where
  sin_port : Nat
  b0 : Nat
  b1 : Nat
  b2 : Nat
  b3 : Nat
deriving DecidableEq, Repr

/-- What `inet_ntop` produces for IPv4: dotted-decimal rendering of the four
address bytes. -/
def inet_ntop4 (a : SockAddrIn) : String :=
  toString a.b0 ++ "." ++ toString a.b1 ++ "." ++ toString a.b2 ++ "." ++
    toString a.b3

/-- The `struct sockaddr_in6`-sized buffer filled by `accept`, under its two
casts used by `main`: the IPv4 view (`struct sockaddr_in` prefix) and the
IPv6 view (`sin6_port` field plus the colon-hex text `inet_ntop(AF_INET6,..)`
would produce, abstracted as a string). -/
structure AddrBuf where
  v4 : SockAddrIn
  sin6_port : Nat
  sin6_text : String
deriving DecidableEq, Repr

/-- The `log_connection_ipv4` function: renders the peer address with `inet_ntop` and
logs `"Connection from %s on port %d"` where `%d` receives
`source->sin_port` — the port field of the PEER address filled by `accept`. -/
def log_connection_ipv4 (glevel lvl : Int) (source : SockAddrIn)
    (log : List LogRecord) : List LogRecord :=
  log_message glevel lvl
    ("Connection from " ++ inet_ntop4 source ++ " on port " ++
      toString source.sin_port) log

/-- The `log_connection_ipv6` function: same shape over the IPv6 view of the buffer. -/
def log_connection_ipv6 (glevel lvl : Int) (portField : Nat) (text : String)
    (log : List LogRecord) : List LogRecord :=
  log_message glevel lvl
    ("Connection from " ++ text ++ " on port " ++ toString portField) log

/-- Oracle for the OS calls made by `create_server`: the value `socket`
returns, whether `setsockopt(SO_REUSEADDR)` fails (and with which errno),
and the values `bind` and `listen` return. -/
structure OsCalls where
  socketResult : Int
  setsockoptFails : Bool
  setsockoptErrno : Int
  bindResult : Int
  listenResult : Int
deriving DecidableEq, Repr

/-- Observable outcome of one `create_server` call. `warned` records the
`LOG_WARNING` call the C code makes inside `create_server` when
`setsockopt` fails (the caller-side models append the record). -/
structure ServerOutcome where
  ret : Int
  socketCreated : Bool
  socketClosed : Bool
  backlogUsed : Option Int
  bindFamily : Option Int
  warned : Bool
deriving DecidableEq, Repr

/-- The `create_server(port, family, max_connections)` function, with
`gfamily` the
value of the global `global_family` consulted for the bind dispatch.
Mirrors the C control flow: argument validation, `max_connections`
defaulting, `socket`, best-effort `setsockopt`, family-dispatched `bind`,
`listen`, closing the socket on `bind`/`listen` failure. -/
def create_server (gfamily port family max_connections : Int)
    (os : OsCalls) : ServerOutcome :=
  if port ≤ 0 ∨ 65535 < port ∨ (family ≠ AF_INET ∧ family ≠ AF_INET6) then
    { ret := -EINVAL, socketCreated := false, socketClosed := false,
      backlogUsed := none, bindFamily := none, warned := false }
  else
    let mc := if max_connections ≤ 0 then 5 else max_connections
    if os.socketResult < 0 then
      { ret := os.socketResult, socketCreated := false, socketClosed := false,
        backlogUsed := none, bindFamily := none, warned := os.setsockoptFails }
    else
      let bfam := if gfamily = AF_INET6 then AF_INET6 else AF_INET
      if os.bindResult < 0 then
        { ret := os.bindResult, socketCreated := true, socketClosed := true,
          backlogUsed := none, bindFamily := some bfam,
          warned := os.setsockoptFails }
      else if os.listenResult < 0 then
        { ret := os.listenResult, socketCreated := true, socketClosed := true,
          backlogUsed := some mc, bindFamily := some bfam,
          warned := os.setsockoptFails }
      else
        { ret := os.socketResult, socketCreated := true, socketClosed := false,
          backlogUsed := some mc, bindFamily := some bfam,
          warned := os.setsockoptFails }

/-- Result of `accept` at a ready listener: either the filled peer-address
buffer, or a failure with an errno. -/
inductive AcceptRes where
  | conn (buf : AddrBuf)
  | failed (errno : Int)
deriving DecidableEq, Repr

/-- One slot of `wait_list` at a wake of `poll`: the `revents` bitmask poll
left there, and what `accept` would return on this listener. -/
structure WakeEntry where
  revents : Nat
  accept : AcceptRes
deriving DecidableEq, Repr

/-- The inner `for` loop of `main` over one wake: iterate over the indexed
slots while `events > 0`; skip a slot whose `revents` lacks `POLLIN`;
otherwise decrement `events` and accept one connection — on accept failure
log the error and `break`, on success log the Connection Event (family
dispatch on `global_family`) and continue.  Returns the log, whether the
`break` was taken, and the indices serviced in order. -/
def service_listeners (glevel gfamily : Int) :
    List (Nat × WakeEntry) → Int → List LogRecord →
      List LogRecord × Bool × List Nat
  | [], _, log => (log, false, [])
  | (p, e) :: rest, events, log =>
    if events ≤ 0 then (log, false, [])
    else if e.revents &&& POLLIN = 0 then
      service_listeners glevel gfamily rest events log
    else
      match e.accept with
      | .failed errno =>
          (log_error glevel "Error accepting connection" errno log, true, [])
      | .conn buf =>
          let log2 :=
            if gfamily = AF_INET6 then
              log_connection_ipv6 glevel LOG_INFO buf.sin6_port buf.sin6_text
                log
            else
              log_connection_ipv4 glevel LOG_INFO buf.v4 log
          let r := service_listeners glevel gfamily rest (events - 1) log2
          (r.1, r.2.1, p :: r.2.2)

/-- The slot sequence the `for` loop of `main` actually visits: the
`global_port_count` live slots with their indices, plus slot
`global_port_count` itself (the loop bound is `p <= global_port_count`),
which still holds the zeroed `pollfd` from `memset` — `revents = 0`, so it
is always skipped. -/
def wake_enum (entries : List WakeEntry) : List (Nat × WakeEntry) :=
  entries.enum ++ [(entries.length, ⟨0, AcceptRes.failed 0⟩)]

/-- The process-wide mutable state touched by the loop and the signal
handler: `global_running`, `global_level`, `global_family`, the listener
socket handles in registration order, and the log. -/
structure SysState where
  running : Bool
  level : Int
  family : Int
  openFds : List Int
  log : List LogRecord
deriving DecidableEq, Repr

/-- The `signal_handler` function: log `"Caught signal %d!"` at `LOG_WARNING` and set
`global_running = false`. -/
def signal_handler (signum : Int) (s : SysState) : SysState :=
  { s with
    log := log_message s.level LOG_WARNING
      ("Caught signal " ++ toString signum ++ "!") s.log,
    running := false }

/-- Outcome of one `poll` call: failure with an errno, or a return count
together with the `revents`/`accept` data for each slot. -/
inductive PollRes where
  | failure (errno : Int)
  | ready (count : Int) (entries : List WakeEntry)
deriving DecidableEq, Repr

/-- One occurrence observed by the loop: a termination signal delivered
between wakes, a termination signal delivered while blocked in `poll`
(the handler runs, then `poll` returns -1 with `errno = EINTR`), or a
`poll` outcome. -/
inductive Event where
  | signal (signum : Int)
  | signalDuringPoll (signum : Int)
  | poll (res : PollRes)
deriving DecidableEq, Repr

/-- Whether an event is a delivery of a termination signal. -/
def Event.isSignal : Event → Bool
  | .signal _ => true
  | .signalDuringPoll _ => true
  | .poll _ => false

/-- The state transition each event induces, read off the body of the
`while` loop: a signal runs `signal_handler`; a signal during `poll`
additionally makes `poll` fail with `EINTR`, which the loop logs; a `poll`
failure is logged; a successful `poll` runs the inner servicing loop.
Only `signal_handler` touches `running`. -/
def step (s : SysState) (e : Event) : SysState :=
  match e with
  | .signal n => signal_handler n s
  | .signalDuringPoll n =>
      let s1 := signal_handler n s
      { s1 with
        log := log_error s1.level "Error waiting connection" EINTR s1.log }
  | .poll (.failure errno) =>
      { s with log := log_error s.level "Error waiting connection" errno s.log }
  | .poll (.ready c entries) =>
      { s with
        log := (service_listeners s.level s.family (wake_enum entries) c
          s.log).1 }

/-- Result of leaving the `while` loop: the final state, `main`'s return
value, and the socket handles passed to `close`, in closing order. -/
structure MainResult where
  final : SysState
  exitCode : Int
  closedFds : List Int
deriving DecidableEq, Repr

/-- The epilogue of `main`: `close(wait_list[p].fd)` for `p` in
registration order, then `return 0`. -/
def close_all (s : SysState) : MainResult :=
  { final := { s with openFds := [] }, exitCode := 0, closedFds := s.openFds }

/-- The `while (global_running)` loop, driven by a trace of events.  The
guard is checked first; a `poll` failure (including the `EINTR` failure
after a signal caught inside `poll`) executes `break`; the inner `for`
loop never breaks out of the `while` (its `break` on accept failure only
abandons the current wake).  `none` means the trace ended with the loop
still blocked waiting for events. -/
def run_loop : SysState → List Event → Option MainResult
  | s, evs =>
    if s.running = false then some (close_all s)
    else
      match evs with
      | [] => none
      | .signal n :: rest => run_loop (signal_handler n s) rest
      | .signalDuringPoll n :: _ =>
          some (close_all (step s (.signalDuringPoll n)))
      | .poll (.failure errno) :: _ =>
          some (close_all (step s (.poll (.failure errno))))
      | .poll (.ready c entries) :: rest =>
          run_loop (step s (.poll (.ready c entries))) rest

/-- The listener-creation loop of `main`: for each configured port (with
the OS oracle for its `create_server` call), on failure log
`"Unable to create socket server"` (passing the negative return as the
errno, as the C does) and fail; on success log the listening record and
continue.  Returns either the log at the failure, or the listener handles
in registration order with the accumulated log. -/
def startup (glevel gfamily : Int) :
    List (Int × OsCalls) → List LogRecord →
      Except (List LogRecord) (List Int × List LogRecord)
  | [], log => .ok ([], log)
  | (port, os) :: rest, log =>
    let o := create_server gfamily port gfamily MAX_CONNECTIONS os
    let log1 :=
      if o.warned then
        log_message glevel LOG_WARNING
          ("Unable to make the address reusable; " ++
            strerror os.setsockoptErrno) log
      else log
    if o.ret < 0 then
      .error (log_error glevel "Unable to create socket server" o.ret log1)
    else
      let log2 := log_message glevel LOG_INFO
        ("Listening to any address on the port " ++ toString port) log1
      match startup glevel gfamily rest log2 with
      | .error l => .error l
      | .ok (fds, l) => .ok (o.ret :: fds, l)

/-- Overall observable outcome of `main` after option parsing and log-file
selection. -/
structure ProgResult where
  exitCode : Int
  enteredLoop : Bool
  log : List LogRecord
  closedFds : List Int
deriving DecidableEq, Repr

/-- The behavior of `main` after parsing: create all listeners (aborting with exit code 1
on the first failure, before the event loop), then run the event loop from
the initial state (`global_running = true`). -/
def main_run (glevel gfamily : Int) (ports : List (Int × OsCalls))
    (evs : List Event) : Option ProgResult :=
  match startup glevel gfamily ports [] with
  | .error log =>
      some { exitCode := 1, enteredLoop := false, log := log, closedFds := [] }
  | .ok (fds, log) =>
      match run_loop
          { running := global_running_init, level := glevel,
            family := gfamily, openFds := fds, log := log } evs with
      | none => none
      | some r =>
          some { exitCode := r.exitCode, enteredLoop := true,
                 log := r.final.log, closedFds := r.closedFds }

/-- Whether a wake slot was reported readable: `revents & POLLIN` nonzero. -/
def isReady (e : WakeEntry) : Bool :=
  e.revents &&& POLLIN != 0

/-- Whether `accept` succeeds at this slot. -/
def hasConn (e : WakeEntry) : Bool :=
  match e.accept with
  | .conn _ => true
  | .failed _ => false

/-- The log record the servicing loop emits for a slot whose `accept`
succeeded (family dispatch as in `main`); the `.failed` case is a junk
value, unreachable under the no-accept-failure hypothesis of the theorems
that use this. -/
def connRecord (gfamily : Int) (e : WakeEntry) : LogRecord :=
  match e.accept with
  | .conn buf =>
      if gfamily = AF_INET6 then
        ⟨LOG_INFO, "Connection from " ++ buf.sin6_text ++ " on port " ++
          toString buf.sin6_port⟩
      else
        ⟨LOG_INFO, "Connection from " ++ inet_ntop4 buf.v4 ++ " on port " ++
          toString buf.v4.sin_port⟩
  | .failed _ => ⟨LOG_ERROR, ""⟩

/-- C8: `create_server` rejects a port outside [1, 65535] or a family other
than IPv4/IPv6 with `-EINVAL` before any socket is created, and a
non-positive backlog is replaced by the safe minimum 5 wherever `listen`
is reached. -/
theorem create_server_validation (gfamily port family mc : Int)
    (os : OsCalls) :
    ((port ≤ 0 ∨ 65535 < port ∨ (family ≠ AF_INET ∧ family ≠ AF_INET6)) →
      (create_server gfamily port family mc os).ret = -EINVAL ∧
      (create_server gfamily port family mc os).socketCreated = false) ∧
    (mc ≤ 0 →
      ∀ b ∈ (create_server gfamily port family mc os).backlogUsed, 5 ≤ b) := by
  constructor
  · intro h
    simp [create_server, h]
  · intro hmc b hb
    by_cases hv : port ≤ 0 ∨ 65535 < port ∨ (family ≠ AF_INET ∧ family ≠ AF_INET6)
    · simp [create_server, hv] at hb
    · simp only [create_server, if_neg hv, if_pos hmc] at hb
      by_cases hs : os.socketResult < 0
      · simp [hs] at hb
      · by_cases hbind : os.bindResult < 0
        · simp [hs, hbind] at hb
        · by_cases hl : os.listenResult < 0 <;>
            simp [hs, hbind, hl] at hb <;> omega

/-- C8 witness: port 0 is rejected with `-EINVAL` and no socket, and a
backlog of 0 is replaced by 5 on a successful call. -/
theorem create_server_validation_witness :
    ((create_server AF_INET 0 AF_INET 50 ⟨4, false, 0, 0, 0⟩).ret = -EINVAL ∧
      (create_server AF_INET 0 AF_INET 50 ⟨4, false, 0, 0, 0⟩).socketCreated
        = false) ∧
    (5 : Int) ≤ 5 ∧
    (create_server AF_INET 80 AF_INET 0 ⟨4, false, 0, 0, 0⟩).backlogUsed
      = some 5 := by
  refine ⟨(create_server_validation AF_INET 0 AF_INET 50 ⟨4, false, 0, 0, 0⟩).1
    (by decide), ?_, by decide⟩
  exact (create_server_validation AF_INET 80 AF_INET 0 ⟨4, false, 0, 0, 0⟩).2
    (by decide) 5 (by decide)

/-- C10: whenever `create_server` created a socket but returns an error
(`bind` or `listen` failed), the socket was closed before returning: no
failed call leaks an open socket. -/
theorem create_server_closes_on_failure (gfamily port family mc : Int)
    (os : OsCalls)
    (hc : (create_server gfamily port family mc os).socketCreated = true)
    (he : (create_server gfamily port family mc os).ret < 0) :
    (create_server gfamily port family mc os).socketClosed = true := by
  by_cases hv : port ≤ 0 ∨ 65535 < port ∨ (family ≠ AF_INET ∧ family ≠ AF_INET6)
  · simp [create_server, hv] at hc
  · simp only [create_server, if_neg hv] at hc he ⊢
    by_cases hs : os.socketResult < 0
    · simp [hs] at hc
    · by_cases hbind : os.bindResult < 0
      · simp [hs, hbind]
      · by_cases hl : os.listenResult < 0
        · simp [hs, hbind, hl]
        · simp [hs, hbind, hl] at he

/-- C10 witness: a call whose `bind` fails reports the socket closed. -/
theorem create_server_closes_on_failure_witness :
    (create_server AF_INET 80 AF_INET 50 ⟨4, false, 0, -1, 0⟩).socketClosed
      = true :=
  create_server_closes_on_failure AF_INET 80 AF_INET 50 ⟨4, false, 0, -1, 0⟩
    (by decide) (by decide)

/-- C7: a `log_message` call with a (nonnegative) severity emits its record
exactly when the severity is numerically at most the configured threshold,
and drops it (log unchanged) otherwise; the default threshold is
`LOG_INFO`. -/
theorem log_severity_threshold (glevel lvl : Int) (msg : String)
    (log : List LogRecord) (hlvl : 0 ≤ lvl) :
    (log_message glevel lvl msg log = log ++ [⟨lvl, msg⟩] ↔ lvl ≤ glevel) ∧
    (glevel < lvl → log_message glevel lvl msg log = log) ∧
    global_level_default = LOG_INFO := by
  refine ⟨⟨?_, ?_⟩, ?_, rfl⟩
  · intro hemit
    by_contra hgt
    rw [log_message, if_pos (Or.inl (by omega))] at hemit
    have := congrArg List.length hemit
    simp at this
  · intro hle
    rw [log_message, if_neg (by omega)]
  · intro hgt
    rw [log_message, if_pos (Or.inl (by omega))]

/-- C7 witness: with the default threshold `LOG_INFO`, an `INFO` record is
emitted and a `DEBUG` record is silently dropped. -/
theorem log_severity_threshold_witness :
    log_message global_level_default LOG_INFO "x" [] = [⟨LOG_INFO, "x"⟩] ∧
    log_message global_level_default LOG_DEBUG "x" [] = [] := by
  constructor
  · have h := (log_severity_threshold global_level_default LOG_INFO "x" []
      (by decide)).1.mpr (by decide)
    simpa using h
  · exact (log_severity_threshold global_level_default LOG_DEBUG "x" []
      (by decide)).2.1 (by decide)

/-- C9: `global_running` starts `true`; a `poll` step (loop body without a
signal) never changes it; once `false` it stays `false` under every step;
no step ever sets it back to `true`; and along any event trace its value
is `true` exactly until the first signal delivery. -/
theorem running_flag_monotone :
    global_running_init = true ∧
    (∀ (s : SysState) (res : PollRes), (step s (.poll res)).running = s.running) ∧
    (∀ (s : SysState) (e : Event), s.running = false → (step s e).running = false) ∧
    (∀ (s : SysState) (e : Event), (step s e).running = true → s.running = true) ∧
    (∀ (s : SysState) (evs : List Event),
      (evs.foldl step s).running =
        (s.running && evs.all (fun e => !e.isSignal))) := by
  refine ⟨rfl, ?_, ?_, ?_, ?_⟩
  · intro s res
    cases res <;> rfl
  · intro s e h
    cases e with
    | signal n => rfl
    | signalDuringPoll n => rfl
    | poll res => cases res <;> simpa [step] using h
  · intro s e h
    cases e with
    | signal n => simp [step, signal_handler] at h
    | signalDuringPoll n => simp [step, signal_handler] at h
    | poll res => cases res <;> simpa [step] using h
  · intro s evs
    induction evs generalizing s with
    | nil => simp
    | cons e rest ih =>
      rw [List.foldl_cons, ih]
      cases e with
      | signal n => simp [step, signal_handler, Event.isSignal]
      | signalDuringPoll n => simp [step, signal_handler, Event.isSignal]
      | poll res =>
        cases res <;> simp [step, Event.isSignal, Bool.and_assoc]

/-- C9 witness: a stopped state stays stopped across a `poll` failure step. -/
theorem running_flag_monotone_witness :
    (step ⟨false, LOG_INFO, AF_INET, [], []⟩
      (Event.poll (PollRes.failure 11))).running = false :=
  running_flag_monotone.2.2.1 ⟨false, LOG_INFO, AF_INET, [], []⟩
    (Event.poll (PollRes.failure 11)) rfl

/-- C4 counterexample: the signal-handling path does NOT mutate only the
Running State flag — `signal_handler` calls `log_message`, so a signal
step also writes the log (here: appends the `"Caught signal 15!"`
warning record). -/
theorem signal_path_mutates_log_cex :
    (step ⟨true, LOG_INFO, AF_INET, [7], []⟩ (Event.signal 15)).log ≠
      (⟨true, LOG_INFO, AF_INET, [7], []⟩ : SysState).log := by
  decide

/-- C4 as amended: the signal-handling path sets the Running State to
`false` and appends one warning record through the Logger (so the log
handle is shared with the signal path too); it touches nothing else — in
particular the listener sockets, level and family are unchanged, remaining
written exclusively by the event-loop path. -/
theorem signal_path_frame (s : SysState) (n : Int) :
    (step s (.signal n)).running = false ∧
    (step s (.signal n)).openFds = s.openFds ∧
    (step s (.signal n)).level = s.level ∧
    (step s (.signal n)).family = s.family ∧
    (step s (.signal n)).log =
      log_message s.level LOG_WARNING
        ("Caught signal " ++ toString n ++ "!") s.log :=
  ⟨rfl, rfl, rfl, rfl, rfl⟩

/-- C3: a termination signal caught with the loop running — whether
delivered between wakes or while blocked in `poll` (where it interrupts
`poll`, producing `EINTR`) — logs the warning, clears the Running State,
makes the loop exit at its next wake without consuming further events,
closes every listener exactly once in registration order, and exits with
status 0. -/
theorem signal_shutdown_clean_exit (s : SysState) (n : Int)
    (rest : List Event) (hr : s.running = true) (hl : s.level = LOG_INFO) :
    run_loop s (Event.signal n :: rest) =
      some { final := { s with
                        running := false, openFds := [],
                        log := s.log ++
                          [⟨LOG_WARNING,
                            "Caught signal " ++ toString n ++ "!"⟩] },
             exitCode := 0, closedFds := s.openFds } ∧
    run_loop s (Event.signalDuringPoll n :: rest) =
      some { final := { s with
                        running := false, openFds := [],
                        log := (s.log ++
                          [⟨LOG_WARNING,
                            "Caught signal " ++ toString n ++ "!"⟩]) ++
                          [⟨LOG_ERROR,
                            "Error waiting connection: " ++ strerror EINTR⟩] },
             exitCode := 0, closedFds := s.openFds } := by
  constructor
  · rw [run_loop.eq_def]
    simp only [hr]
    rw [run_loop.eq_def]
    simp [signal_handler, close_all, log_message, hl, LOG_WARNING, LOG_INFO]
  · rw [run_loop.eq_def]
    simp only [hr]
    simp [step, signal_handler, close_all, log_error, log_message, hl,
      LOG_WARNING, LOG_INFO, LOG_ERROR]

/-- C3 witness: concrete shutdown — two listeners get closed in
registration order and the process exits 0. -/
theorem signal_shutdown_clean_exit_witness :
    run_loop ⟨true, LOG_INFO, AF_INET, [4, 5], []⟩ [Event.signal 2] =
      some ⟨⟨false, LOG_INFO, AF_INET, [],
             [⟨LOG_WARNING, "Caught signal 2!"⟩]⟩, 0, [4, 5]⟩ := by
  have h := (signal_shutdown_clean_exit ⟨true, LOG_INFO, AF_INET, [4, 5], []⟩
    2 [] rfl rfl).1
  simpa using h

/-- C1: the Connection Event record.  Exactly one record is emitted per
accepted connection (first conjunct: the wake produces exactly one record),
but the `%d` argument of `"Connection from %s on port %d"` is
`source->sin_port` — the port field of the PEER address that `accept`
filled in (third conjunct) — not the local port that received the
connection.  Concretely: a peer `127.0.0.1` whose port field reads 40000
connecting to the listener on local port 22 is logged as
`"Connection from 127.0.0.1 on port 40000"`, never `"... on port 22"`
(second conjunct); the servicing loop does not consult `global_ports` at
all. -/
theorem connection_log_reports_peer_port :
    (step ⟨true, LOG_INFO, AF_INET, [5], []⟩
        (Event.poll (PollRes.ready 1
          [⟨1, AcceptRes.conn ⟨⟨40000, 127, 0, 0, 1⟩, 0, ""⟩⟩]))).log =
      [⟨LOG_INFO, "Connection from 127.0.0.1 on port 40000"⟩] ∧
    "Connection from 127.0.0.1 on port 40000" ≠
      "Connection from 127.0.0.1 on port 22" ∧
    (∀ (glevel : Int) (buf : AddrBuf) (log : List LogRecord),
      log_connection_ipv4 glevel LOG_INFO buf.v4 log =
        log_message glevel LOG_INFO
          ("Connection from " ++ inet_ntop4 buf.v4 ++ " on port " ++
            toString buf.v4.sin_port) log) :=
  ⟨by decide, by decide, fun glevel buf log => rfl⟩

/-- C2 counterexample: runtime errors do not behave as claimed.  First
conjunct: after a `poll` failure the loop exits but `main` returns 0, not
a nonzero failure status.  Second conjunct: after an accept failure the
inner `break` only abandons the current wake — the `while` loop keeps
running and a FURTHER connection is accepted and logged afterwards (the
`"Connection from ..."` record follows the `"Error accepting connection"`
record), before a signal finally ends the process with status 0. -/
theorem runtime_error_cex :
    run_loop ⟨true, LOG_INFO, AF_INET, [3], []⟩
        [Event.poll (PollRes.failure 11)] =
      some ⟨⟨true, LOG_INFO, AF_INET, [],
             [⟨LOG_ERROR, "Error waiting connection: strerror 11"⟩]⟩,
            0, [3]⟩ ∧
    run_loop ⟨true, LOG_INFO, AF_INET, [3], []⟩
        [Event.poll (PollRes.ready 1 [⟨1, AcceptRes.failed 24⟩]),
         Event.poll (PollRes.ready 1
           [⟨1, AcceptRes.conn ⟨⟨40000, 127, 0, 0, 1⟩, 0, ""⟩⟩]),
         Event.signal 2] =
      some ⟨⟨false, LOG_INFO, AF_INET, [],
             [⟨LOG_ERROR, "Error accepting connection: strerror 24"⟩,
              ⟨LOG_INFO, "Connection from 127.0.0.1 on port 40000"⟩,
              ⟨LOG_WARNING, "Caught signal 2!"⟩]⟩,
            0, [3]⟩ := by
  constructor <;> decide

/-- C2 as amended: a failure of the wait primitive (`poll`) is logged as an
error, the event loop exits, every listener is closed in registration
order, and the process exits with status 0 (not a failure status).  A
failure to accept on a ready listener is logged as an error and aborts
only the servicing of the remaining ready listeners of that wake; the
event loop itself continues (still running) and proceeds to the next
wake. -/
theorem runtime_error_behavior :
    (∀ (s : SysState) (errno : Int) (rest : List Event), s.running = true →
      run_loop s (Event.poll (PollRes.failure errno) :: rest) =
        some { final := { s with
                          openFds := [],
                          log := log_error s.level "Error waiting connection"
                            errno s.log },
               exitCode := 0, closedFds := s.openFds }) ∧
    (∀ (glevel gf errno : Int) (p : Nat) (e : WakeEntry)
        (rest : List (Nat × WakeEntry)) (events : Int) (log : List LogRecord),
      0 < events → e.revents &&& POLLIN ≠ 0 →
      e.accept = AcceptRes.failed errno →
      service_listeners glevel gf ((p, e) :: rest) events log =
        (log_error glevel "Error accepting connection" errno log, true, [])) ∧
    (∀ (s : SysState) (c : Int) (entries : List WakeEntry)
        (rest : List Event), s.running = true →
      run_loop s (Event.poll (PollRes.ready c entries) :: rest) =
        run_loop (step s (Event.poll (PollRes.ready c entries))) rest ∧
      (step s (Event.poll (PollRes.ready c entries))).running = true) := by
  refine ⟨?_, ?_, ?_⟩
  · intro s errno rest hr
    rw [run_loop.eq_def]
    simp only [hr]
    simp [step, close_all, hr]
  · intro glevel gf errno p e rest events log hev hready hacc
    obtain ⟨rev, acc⟩ := e
    cases acc with
    | conn buf => simp at hacc
    | failed k =>
      obtain rfl : k = errno := by injection hacc
      rw [service_listeners]
      rw [if_neg (by omega), if_neg hready]
  · intro s c entries rest hr
    constructor
    · rw [run_loop.eq_def]
      simp only [hr]
      rfl
    · simpa [step] using hr

/-- C2 amended witness: a concrete `poll` failure exits with status 0 and
closes the listeners, and a concrete accept failure stops the wake with
just the error record. -/
theorem runtime_error_behavior_witness :
    run_loop ⟨true, LOG_INFO, AF_INET, [9, 12], []⟩
        [Event.poll (PollRes.failure 13)] =
      some ⟨⟨true, LOG_INFO, AF_INET, [],
             [⟨LOG_ERROR, "Error waiting connection: strerror 13"⟩]⟩,
            0, [9, 12]⟩ ∧
    service_listeners LOG_INFO AF_INET
        [(0, ⟨1, AcceptRes.failed 24⟩), (1, ⟨1, AcceptRes.failed 24⟩)] 2 [] =
      ([⟨LOG_ERROR, "Error accepting connection: strerror 24"⟩], true, []) := by
  constructor
  · have h := runtime_error_behavior.1 ⟨true, LOG_INFO, AF_INET, [9, 12], []⟩
      13 [] rfl
    simpa [log_error, log_message, strerror, LOG_ERROR, LOG_INFO] using h
  · have h := runtime_error_behavior.2.1 LOG_INFO AF_INET 24 0
      ⟨1, AcceptRes.failed 24⟩ [(1, ⟨1, AcceptRes.failed 24⟩)] 2 []
      (by decide) (by decide) rfl
    simpa [log_error, log_message, strerror, LOG_ERROR, LOG_INFO] using h

/-- Counting a property of the values is unchanged by enumeration. -/
lemma countP_enumFrom_snd (q : WakeEntry → Bool) (es : List WakeEntry) :
    ∀ n, (List.enumFrom n es).countP (fun pe => q pe.2) = es.countP q := by
  induction es with
  | nil => intro n; rfl
  | cons h t ih => intro n; simp [List.enumFrom, List.countP_cons, ih]

/-- Filtering by a property of the values then dropping the indices is the
same as filtering the values. -/
lemma filter_enumFrom_snd (q : WakeEntry → Bool) (es : List WakeEntry) :
    ∀ n, ((List.enumFrom n es).filter (fun pe => q pe.2)).map Prod.snd =
      es.filter q := by
  induction es with
  | nil => intro n; rfl
  | cons h t ih =>
    intro n
    by_cases hq : q h <;> simp [List.enumFrom, List.filter_cons, hq, ih]

/-- A member of an enumeration has its value in the underlying list. -/
lemma mem_enumFrom_value {es : List WakeEntry} {pe : Nat × WakeEntry} :
    ∀ {n}, pe ∈ List.enumFrom n es → pe.2 ∈ es := by
  induction es with
  | nil => intro n h; simp [List.enumFrom] at h
  | cons hd t ih =>
    intro n h
    rw [List.enumFrom] at h
    rcases List.mem_cons.mp h with heq | h2
    · rw [heq]; exact List.mem_cons_self _ _
    · exact List.mem_cons_of_mem _ (ih h2)

/-- The record a successful accept appends, for either address family, at
the program's threshold `LOG_INFO`. -/
lemma conn_append (gf : Int) (rev : Nat) (buf : AddrBuf)
    (log : List LogRecord) :
    (if gf = AF_INET6 then
       log_connection_ipv6 LOG_INFO LOG_INFO buf.sin6_port buf.sin6_text log
     else log_connection_ipv4 LOG_INFO LOG_INFO buf.v4 log) =
      log ++ [connRecord gf ⟨rev, AcceptRes.conn buf⟩] := by
  by_cases hgf : gf = AF_INET6 <;>
    simp [hgf, log_connection_ipv6, log_connection_ipv4, log_message,
      connRecord, LOG_INFO]

/-- Core servicing lemma: when `events` is at least the number of slots
with nonzero `revents` (what `poll` reports) and `accept` succeeds at
every ready slot, the inner loop services exactly the ready slots, in list
(= registration) order, appending exactly one Connection Event record per
ready slot, without breaking. -/
lemma service_all_ready (gf : Int) (l : List (Nat × WakeEntry)) :
    ∀ (events : Int) (log : List LogRecord),
      ((l.countP (fun pe => pe.2.revents != 0) : Nat) : Int) ≤ events →
      (∀ pe ∈ l, isReady pe.2 → hasConn pe.2) →
      service_listeners LOG_INFO gf l events log =
        (log ++ (l.filter (fun pe => isReady pe.2)).map
            (fun pe => connRecord gf pe.2),
         false,
         (l.filter (fun pe => isReady pe.2)).map Prod.fst) := by
  induction l with
  | nil => intro events log _ _; simp [service_listeners]
  | cons hd rest ih =>
    intro events log hev hok
    obtain ⟨p, rev, acc⟩ := hd
    rw [service_listeners]
    by_cases hev0 : events ≤ 0
    · rw [if_pos hev0]
      have hc0 : ((p, ⟨rev, acc⟩) :: rest).countP
          (fun pe => pe.2.revents != 0) = 0 := by omega
      have hall := List.countP_eq_zero.mp hc0
      have hfilter : ((p, (⟨rev, acc⟩ : WakeEntry)) :: rest).filter
          (fun pe => isReady pe.2) = [] := by
        rw [List.filter_eq_nil_iff]
        intro pe hmem
        have hz := hall pe hmem
        simp only [bne_iff_ne, ne_eq, not_not] at hz
        simp [isReady, hz, POLLIN]
      rw [hfilter]
      simp
    · rw [if_neg hev0]
      by_cases hr : rev &&& POLLIN = 0
      · rw [if_pos hr]
        have hev2 : ((rest.countP (fun pe => pe.2.revents != 0) : Nat) : Int)
            ≤ events := by
          rw [List.countP_cons] at hev
          by_cases hin : rev != 0 <;> simp [hin] at hev <;> omega
        rw [ih events log hev2
          (fun pe hm hr2 => hok pe (List.mem_cons_of_mem _ hm) hr2)]
        have hnotr : isReady (⟨rev, acc⟩ : WakeEntry) = false := by
          simp [isReady, hr]
        simp [List.filter_cons, hnotr]
      · rw [if_neg hr]
        have hready : isReady (⟨rev, acc⟩ : WakeEntry) = true := by
          simp [isReady, hr]
        have hc := hok (p, ⟨rev, acc⟩) (List.mem_cons_self _ _) hready
        cases acc with
        | failed k => simp [hasConn] at hc
        | conn buf =>
          have hne : (rev != 0) = true := by
            simp only [bne_iff_ne, ne_eq]
            intro h0
            rw [h0] at hr
            simp [POLLIN] at hr
          have hev2 : ((rest.countP (fun pe => pe.2.revents != 0) : Nat) : Int)
              ≤ events - 1 := by
            rw [List.countP_cons] at hev
            simp [hne] at hev
            omega
          simp only [conn_append gf rev buf log]
          rw [ih (events - 1) (log ++ [connRecord gf ⟨rev, AcceptRes.conn buf⟩])
            hev2 (fun pe hm hr2 => hok pe (List.mem_cons_of_mem _ hm) hr2)]
          simp [List.filter_cons, hready, List.append_assoc]

/-- C5: within one wake (the slot sequence `main` visits, sentinel slot
included), with `poll` reporting at least the number of slots with nonzero
`revents` and `accept` succeeding on every ready listener, every listener
reported ready is serviced, in listener-registration order (`Prod.fst`
part: the ready indices in increasing order), exactly one connection is
accepted per ready listener, and each Connection Event is appended to the
log before the next ready listener is serviced (the log grows by exactly
the ordered concatenation of the per-listener records). -/
theorem wake_services_ready_in_order (gf : Int) (entries : List WakeEntry)
    (c : Int) (log : List LogRecord)
    (hev : ((entries.countP (fun e => e.revents != 0) : Nat) : Int) ≤ c)
    (hok : ∀ e ∈ entries, isReady e → hasConn e) :
    service_listeners LOG_INFO gf (wake_enum entries) c log =
      (log ++ (entries.filter isReady).map (connRecord gf),
       false,
       (entries.enum.filter (fun pe => isReady pe.2)).map Prod.fst) := by
  have hsent : isReady (⟨0, AcceptRes.failed 0⟩ : WakeEntry) = false := by
    simp [isReady, POLLIN]
  have hev2 : (((wake_enum entries).countP
      (fun pe => pe.2.revents != 0) : Nat) : Int) ≤ c := by
    rw [wake_enum, List.countP_append]
    have h1 : (List.enum entries).countP (fun pe => pe.2.revents != 0) =
        entries.countP (fun e => e.revents != 0) := by
      rw [show List.enum entries = List.enumFrom 0 entries from rfl]
      exact countP_enumFrom_snd (fun e => e.revents != 0) entries 0
    have h2 : ([(entries.length, (⟨0, AcceptRes.failed 0⟩ : WakeEntry))].countP
        (fun pe => pe.2.revents != 0)) = 0 := by
      simp [List.countP_cons]
    rw [h1, h2]
    simpa using hev
  have hok2 : ∀ pe ∈ wake_enum entries, isReady pe.2 → hasConn pe.2 := by
    intro pe hmem hready
    rcases List.mem_append.mp hmem with hin | hin
    · exact hok pe.2 (mem_enumFrom_value hin) hready
    · have : pe = (entries.length, (⟨0, AcceptRes.failed 0⟩ : WakeEntry)) := by
        simpa using hin
      rw [this] at hready
      rw [hsent] at hready
      exact absurd hready (by simp)
  rw [service_all_ready gf (wake_enum entries) c log hev2 hok2]
  have hfsent : (wake_enum entries).filter (fun pe => isReady pe.2) =
      (List.enum entries).filter (fun pe => isReady pe.2) := by
    rw [wake_enum, List.filter_append]
    simp [hsent]
  rw [hfsent]
  have hsnd : ((List.enum entries).filter (fun pe => isReady pe.2)).map
      Prod.snd = entries.filter isReady := by
    rw [show List.enum entries = List.enumFrom 0 entries from rfl]
    exact filter_enumFrom_snd _ entries 0
  have hmap : ((List.enum entries).filter (fun pe => isReady pe.2)).map
      (fun pe => connRecord gf pe.2) =
      (entries.filter isReady).map (connRecord gf) := by
    rw [show (fun pe : Nat × WakeEntry => connRecord gf pe.2) =
      (connRecord gf) ∘ Prod.snd from rfl]
    rw [← List.map_map, hsnd]
  rw [hmap]

/-- C5 witness: slots 0 and 2 ready, slot 1 idle — both ready listeners are
serviced in order, each logged before the next. -/
theorem wake_services_ready_in_order_witness :
    service_listeners LOG_INFO AF_INET
        (wake_enum
          [⟨1, AcceptRes.conn ⟨⟨40000, 127, 0, 0, 1⟩, 0, ""⟩⟩,
           ⟨0, AcceptRes.conn ⟨⟨50000, 10, 0, 0, 7⟩, 0, ""⟩⟩,
           ⟨1, AcceptRes.conn ⟨⟨50001, 10, 0, 0, 9⟩, 0, ""⟩⟩]) 2 [] =
      ([⟨LOG_INFO, "Connection from 127.0.0.1 on port 40000"⟩,
        ⟨LOG_INFO, "Connection from 10.0.0.9 on port 50001"⟩],
       false, [0, 2]) := by
  have h := wake_services_ready_in_order AF_INET
    [⟨1, AcceptRes.conn ⟨⟨40000, 127, 0, 0, 1⟩, 0, ""⟩⟩,
     ⟨0, AcceptRes.conn ⟨⟨50000, 10, 0, 0, 7⟩, 0, ""⟩⟩,
     ⟨1, AcceptRes.conn ⟨⟨50001, 10, 0, 0, 9⟩, 0, ""⟩⟩] 2 []
    (by decide) (by decide)
  rw [h]
  decide

/-- If any requested port's `create_server` fails, `startup` aborts at the
first failure with an error log whose last record is the `LOG_ERROR`
"Unable to create socket server" record, whatever log it started from. -/
lemma startup_error_of_fail (glevel gf : Int)
    (ports : List (Int × OsCalls)) :
    ∀ (log0 : List LogRecord), 0 ≤ glevel →
      (∃ pos ∈ ports,
        (create_server gf pos.1 gf MAX_CONNECTIONS pos.2).ret < 0) →
      ∃ errlog, startup glevel gf ports log0 = .error errlog ∧
        errlog.getLast?.map LogRecord.level = some LOG_ERROR := by
  induction ports with
  | nil => intro log0 _ hex; simp at hex
  | cons hd rest ih =>
    intro log0 hg hex
    obtain ⟨p, os⟩ := hd
    rw [startup]
    by_cases hf : (create_server gf p gf MAX_CONNECTIONS os).ret < 0
    · rw [if_pos hf]
      refine ⟨_, rfl, ?_⟩
      rw [log_error, log_message, if_neg (by simp [LOG_ERROR]; omega)]
      simp [List.getLast?_concat, LOG_ERROR]
    · rw [if_neg hf]
      have hex2 : ∃ pos ∈ rest,
          (create_server gf pos.1 gf MAX_CONNECTIONS pos.2).ret < 0 := by
        rcases hex with ⟨pos, hmem, hret⟩
        rcases List.mem_cons.mp hmem with heq | hmem2
        · rw [heq] at hret; exact absurd hret hf
        · exact ⟨pos, hmem2, hret⟩
      obtain ⟨errlog, heq, hlast⟩ := ih
        (log_message glevel LOG_INFO
          ("Listening to any address on the port " ++ toString p)
          (if (create_server gf p gf MAX_CONNECTIONS os).warned = true then
            log_message glevel LOG_WARNING
              ("Unable to make the address reusable; " ++
                strerror os.setsockoptErrno) log0
          else log0)) hg hex2
      refine ⟨errlog, ?_, hlast⟩
      simp only [heq]

/-- C6: all-or-nothing startup — if any requested port cannot be turned
into a listener (its `create_server` call returns an error), the process
logs the error (last log record is at `LOG_ERROR`), exits with code 1, and
never enters the event loop (so no partial listener set keeps running, and
nothing is ever closed by the loop epilogue). -/
theorem startup_all_or_nothing (glevel gf : Int)
    (ports : List (Int × OsCalls)) (evs : List Event)
    (hg : glevel = LOG_INFO)
    (hfail : ∃ pos ∈ ports,
      (create_server gf pos.1 gf MAX_CONNECTIONS pos.2).ret < 0) :
    (main_run glevel gf ports evs).map
        (fun r => (r.exitCode, r.enteredLoop, r.closedFds,
          r.log.getLast?.map LogRecord.level)) =
      some (1, false, ([] : List Int), some LOG_ERROR) := by
  obtain ⟨errlog, heq, hlast⟩ :=
    startup_error_of_fail glevel gf ports [] (by rw [hg, LOG_INFO]; omega) hfail
  rw [main_run, heq]
  simp [hlast]

/-- C6 witness: a single port whose `socket` call fails — exit code 1, the
loop is never entered, and the last record is the error. -/
theorem startup_all_or_nothing_witness :
    (main_run LOG_INFO AF_INET [(80, ⟨-1, false, 0, 0, 0⟩)] []).map
        (fun r => (r.exitCode, r.enteredLoop, r.closedFds,
          r.log.getLast?.map LogRecord.level)) =
      some (1, false, ([] : List Int), some LOG_ERROR) :=
  startup_all_or_nothing LOG_INFO AF_INET [(80, ⟨-1, false, 0, 0, 0⟩)] []
    rfl (by decide)
